import Mathlib

/-!
Verification of the association-spend-management conversational bot.

The definitions below are a shallow embedding of the dialogue engine in
src/src/config/configuration.ts (the final snapshot of the file, the one
declaring UserStateType with the collection_info variant) and of the
collection initialization in src/src/google-sheets/google-sheets.service.ts.
JavaScript numbers are modelled by JsNum (NaN or an exact rational);
JavaScript strings by Lean String; `undefined` object fields by Option.
Adapter calls (spreadsheet writes, file upload, OCR, AI extraction) are
modelled as emitted effects, with their success or failure supplied as
boolean oracles in an Env record, and the wall clock supplied as strings.
-/

/-- Model of a JavaScript number: NaN or an exact rational value.
(The engine only produces numbers via parseFloat and literals, and only
compares them; IEEE rounding is irrelevant at the granularity used here.) -/
inductive JsNum where
  | nan : JsNum
  | num : ℚ → JsNum
deriving DecidableEq

/-- JavaScript truthiness of a number: NaN and 0 are falsy. -/
def JsNum.falsy : JsNum → Bool
  | .nan => true
  | .num q => q == 0

/-- Truthiness of an optional number field: undefined, NaN and 0 are falsy. -/
def optNumFalsy : Option JsNum → Bool
  | none => true
  | some n => n.falsy

/-- Truthiness of an optional string field: undefined and the empty string are falsy. -/
def optStrFalsy : Option String → Bool
  | none => true
  | some s => s == ""

/-- JavaScript value-or-default on an optional number, as in `x || 0`:
the default is taken when the field is undefined, NaN or 0. -/
def jsOrNum (o : Option JsNum) (d : ℚ) : ℚ :=
  match o with
  | none => d
  | some .nan => d
  | some (.num q) => if q == 0 then d else q

/-- JavaScript value-or-default on an optional string, as in `s || d`:
the default is taken when the field is undefined or the empty string. -/
def jsOrStr (o : Option String) (d : String) : String :=
  match o with
  | none => d
  | some s => if s == "" then d else s

/-- JavaScript String.prototype.toLowerCase restricted to the ASCII range
the bot's inputs use. -/
def jsToLower (s : String) : String :=
  String.mk (s.data.map Char.toLower)

/-- The whitespace characters relevant to the bot's inputs. -/
def isWhite (c : Char) : Bool :=
  c == ' ' || c == '\t' || c == '\n' || c == '\r'

/-- Trim on character lists: drop whitespace from both ends. -/
def listTrim (cs : List Char) : List Char :=
  ((cs.dropWhile isWhite).reverse.dropWhile isWhite).reverse

/-- JavaScript String.prototype.trim. -/
def jsTrim (s : String) : String :=
  String.mk (listTrim s.data)

/-- Does the character list start with the given pattern? -/
def startsSeq (pat cs : List Char) : Bool :=
  match pat, cs with
  | [], _ => true
  | _ :: _, [] => false
  | p :: ps, c :: rest => p == c && startsSeq ps rest

/-- Does the pattern occur as a contiguous subsequence of the list? -/
def occursIn (pat cs : List Char) : Bool :=
  match cs with
  | [] => pat.isEmpty
  | _ :: rest => startsSeq pat cs || occursIn pat rest

/-- JavaScript String.prototype.includes: true when the search string
occurs as a substring. -/
def jsIncludes (hay needle : String) : Bool :=
  occursIn needle.data hay.data

/-- JavaScript String.prototype.split on a single-character separator:
empty pieces are preserved. -/
def splitChar (sep : Char) (cs : List Char) : List (List Char) :=
  match cs with
  | [] => [[]]
  | c :: rest =>
    let r := splitChar sep rest
    if c == sep then [] :: r
    else
      match r with
      | [] => [[c]]
      | g :: gs => (c :: g) :: gs

/-- String.prototype.split on a single-character separator, as strings. -/
def jsSplitChar (sep : Char) (s : String) : List String :=
  (splitChar sep s.data).map String.mk

/-- Join character lists with a separator character. -/
def joinChar (sep : Char) (parts : List (List Char)) : List Char :=
  match parts with
  | [] => []
  | [p] => p
  | p :: ps => p ++ sep :: joinChar sep ps

/-- Does the string start with a slash (the command test of the handlers)? -/
def jsStartsWithSlash (s : String) : Bool :=
  match s.data with
  | [] => false
  | c :: _ => c == '/'

/-- Digits of a decimal literal folded into a natural number. -/
def digitsToNat (ds : List Char) : Nat :=
  ds.foldl (fun a c => a * 10 + (c.toNat - 48)) 0

/-- Model of the JavaScript parseFloat built-in on the inputs the bot
receives: skip leading whitespace, read an optional sign, integer digits
and an optional fraction, and return NaN when no digit is found.
(Exponent notation is not modelled; no claim depends on it.) -/
def jsParseFloat (s : String) : JsNum :=
  let cs := s.data.dropWhile isWhite
  let neg : Bool := match cs with | '-' :: _ => true | _ => false
  let cs2 : List Char :=
    match cs with
    | '-' :: rest => rest
    | '+' :: rest => rest
    | _ => cs
  let intDigits := cs2.takeWhile Char.isDigit
  let afterInt := cs2.dropWhile Char.isDigit
  let fracDigits : List Char :=
    match afterInt with
    | '.' :: rest => rest.takeWhile Char.isDigit
    | _ => []
  if intDigits.isEmpty && fracDigits.isEmpty then .nan
  else
    let scaled : Int :=
      (digitsToNat intDigits * 10 ^ fracDigits.length + digitsToNat fracDigits : Nat)
    .num (mkRat (if neg then -scaled else scaled) (10 ^ fracDigits.length))

/-- The committed transaction type, 'expense' | 'income' in the source. -/
inductive EntryType where
  | expense : EntryType
  | income : EntryType
deriving DecidableEq

/-- UserStateType = 'expense' | 'income' | 'flat_info' | 'collection_info'. -/
inductive UserStateType where
  | expense : UserStateType
  | income : UserStateType
  | flat_info : UserStateType
  | collection_info : UserStateType
deriving DecidableEq

/-- The ExtractedInfo interface: every field optional except confidence. -/
structure ExtractedInfo where
  amount : Option JsNum := none
  category : Option String := none
  description : Option String := none
  date : Option String := none
  type : Option EntryType := none
  confidence : ℚ
deriving DecidableEq

/-- The FlatInfo record as handleFlatInfoInput actually manipulates it
(a Partial of the declared interface: every field may still be undefined). -/
structure FlatInfo where
  flatNumber : Option String := none
  floorNumber : Option String := none
  ownerName : Option String := none
  tenantName : Option String := none
  maintenanceAmount : Option JsNum := none
  phoneNumber : Option String := none
  email : Option String := none
  isOccupied : Option Bool := none
deriving DecidableEq

/-- The completed FlatInfo handed to updateFlatInfo on save. -/
structure CompleteFlatInfo where
  flatNumber : String
  floorNumber : String
  ownerName : String
  tenantName : Option String
  maintenanceAmount : JsNum
  phoneNumber : String
  email : Option String
  isOccupied : Bool
  lastUpdated : String
deriving DecidableEq

/-- The CollectionSheet descriptor (type, month, year, optional description). -/
structure CollectionSheet where
  ctype : String
  month : String
  year : Int
  description : Option String := none
deriving DecidableEq

/-- The untagged union ExtractedInfo | FlatInfo stored in UserState.extractedInfo;
the source discriminates with the isExtractedInfo / isFlatInfo property checks. -/
inductive Info where
  | extracted : ExtractedInfo → Info
  | flat : FlatInfo → Info
deriving DecidableEq

/-- isExtractedInfo: the stored info is present and carries a confidence field. -/
def isExtractedInfo : Option Info → Bool
  | some (.extracted _) => true
  | _ => false

/-- The per-chat UserState record. -/
structure UserState where
  type : UserStateType
  extractedInfo : Option Info := none
  pendingQuestions : Option (List String) := none
  receiptUrl : Option String := none
  userName : Option String := none
  collectionType : Option CollectionSheet := none
deriving DecidableEq

/-- The Entry record handed to googleSheetsService.addEntry. -/
structure Entry where
  amount : ℚ
  category : String
  description : String
  date : String
  type : EntryType
  receiptUrl : String
  addedBy : String
deriving DecidableEq

/-- Observable actions of one handler turn: outbound chat messages and
adapter calls, in emission order. The confirmation prompt carries the
entry it displays instead of the formatted message text. -/
inductive Effect where
  | sendMessage : String → Effect
  | confirmPrompt : Entry → Effect
  | addEntry : Entry → Effect
  | updateFlatInfo : CompleteFlatInfo → Effect
  | initializeCollection : ℚ → Effect
  | getCollection : Effect
  | collectionSummary : Effect
  | uploadReceipt : Effect
  | ocrRecognize : Effect
  | aiExtract : Effect
deriving DecidableEq

/-- Success oracles for the adapter calls a turn may make, plus the two
timestamps the engine reads from the clock. -/
structure Env where
  addEntryOk : Bool
  updateFlatOk : Bool
  initCollectionOk : Bool
  today : String
  nowIso : String
deriving DecidableEq

/-- getEntryType: flat_info and collection_info fall back to 'expense'. -/
def getEntryType : UserStateType → EntryType
  | .flat_info => .expense
  | .collection_info => .expense
  | .expense => .expense
  | .income => .income

/-! Message text constants of the engine (emoji and inline keyboards are
omitted from the modelled strings; no claim depends on them). -/

/-- The four follow-up questions of askFollowUpQuestions, verbatim. -/
def amountQuestion : String := "What is the amount?"

/-- Follow-up question for a missing category. -/
def categoryQuestion : String := "What is the category? (e.g., Maintenance, Utilities, Dues)"

/-- Follow-up question for a missing description. -/
def descriptionQuestion : String := "What is this expense/income for?"

/-- Follow-up question for a missing date. -/
def dateQuestion : String := "What is the date? (YYYY-MM-DD)"

/-- Prompt sent when a photo or plain text arrives with no session. -/
def choosePrompt : String := "Please select whether this is an expense or income:"

/-- Welcome message sent for greeting texts. -/
def welcomeMessage : String := "Welcome to the Flat Association Expense Bot!"

/-- Success message after a committed entry. -/
def entryAddedMessage : String := "Entry added successfully!"

/-- Error message when addEntry fails during confirmation. -/
def entryErrorMessage : String := "Error adding entry. Please try again."

/-- Validation message when a required FlatInfo field is skipped. -/
def requiredFieldMessage : String := "This field is required. Please provide a value."

/-- Success message after saving flat information. -/
def flatSavedMessage : String := "Flat information saved successfully!"

/-- Error message when saving flat information fails. -/
def flatSaveErrorMessage : String := "Error saving flat information. Please try again."

/-- Validation message for a non-positive collection amount. -/
def invalidAmountMessage : String := "Please enter a valid amount greater than 0."

/-- Success message after creating a collection sheet. -/
def collectionCreatedMessage : String := "Collection sheet created successfully!"

/-- Error message when collection creation fails. -/
def collectionErrorMessage : String := "Error creating collection sheet. Please try again."

/-- Status message sent before the receipt is processed. -/
def processingMessage : String := "Processing your receipt..."

/-- Status message sent before uploading to Drive. -/
def uploadingMessage : String := "Uploading receipt to Google Drive..."

/-- Status message sent before OCR. -/
def extractingMessage : String := "Extracting text from image..."

/-- Status message sent before AI analysis. -/
def analyzingMessage : String := "Analyzing the extracted text..."

/-- Message when OCR produced no text. -/
def noTextMessage : String := "Could not extract any text from the image. Please try again with a clearer image or enter the details manually."

/-- Message of the inner catch around the AI extraction. -/
def geminiErrorMessage : String := "Error analyzing the text. Please try entering the details manually using the format:\nAmount, Category, Description"

/-- Message of the outer catch of handlePhotoMessage for upload/OCR failures. -/
def receiptErrorMessage : String := "Error processing your receipt. Please try entering the details manually using the format:\nAmount, Category, Description"

/-- Message when the photo array is empty. -/
def noPhotoMessage : String := "No photo received. Please try again."

/-- The greeting texts recognized after lowercasing. -/
def greetings : List String := ["hi", "hello", "hey", "start"]

/-- The fixed FlatInfo question script installed by the add_flat callback. -/
def flatInfoQuestions : List String :=
  ["Enter flat number:",
   "Enter floor number:",
   "Enter owner name:",
   "Enter maintenance amount:",
   "Enter phone number:",
   "Is the flat occupied? (yes/no):",
   "If occupied, enter tenant name (or press skip):",
   "Enter email (or press skip):"]

/-- The entry object built both in confirmAndSaveEntry and in the yes-branch
of handleTextMessage: every missing required field is replaced by a default
via JavaScript truthiness (amount 0, category and description empty, date
today, receiptUrl empty, addedBy Unknown). -/
def mkEntry (info : ExtractedInfo) (s : UserState) (today : String) : Entry :=
  { amount := jsOrNum info.amount 0
    category := jsOrStr info.category ""
    description := jsOrStr info.description ""
    date := jsOrStr info.date today
    type := getEntryType s.type
    receiptUrl := jsOrStr s.receiptUrl ""
    addedBy := jsOrStr s.userName "Unknown" }

/-- The follow-up question list built by askFollowUpQuestions: one question
per falsy field, in the fixed order amount, category, description, date. -/
def followUpQuestions (info : ExtractedInfo) : List String :=
  (if optNumFalsy info.amount then [amountQuestion] else []) ++
  (if optStrFalsy info.category then [categoryQuestion] else []) ++
  (if optStrFalsy info.description then [descriptionQuestion] else []) ++
  (if optStrFalsy info.date then [dateQuestion] else [])

/-- confirmAndSaveEntry: sends the confirmation prompt carrying the defaulted
entry and stores the state awaiting the yes/no answer (pendingQuestions and
collectionType are omitted from the stored object, hence undefined). -/
def confirmAndSaveEntry (env : Env) (st : Option UserState) (info : ExtractedInfo) :
    Option UserState × List Effect :=
  match st with
  | none => (none, [])
  | some s =>
    (some { type := s.type
            extractedInfo := some (.extracted info)
            pendingQuestions := none
            receiptUrl := s.receiptUrl
            userName := s.userName
            collectionType := none },
     [.confirmPrompt (mkEntry info s env.today)])

/-- askFollowUpQuestions: queue one question per missing field and ask the
first, or fall through to confirmation when nothing is missing. -/
def askFollowUpQuestions (env : Env) (st : Option UserState) (info : ExtractedInfo) :
    Option UserState × List Effect :=
  match st with
  | none => (none, [])
  | some s =>
    let questions := followUpQuestions info
    match questions with
    | [] => confirmAndSaveEntry env (some s) info
    | q :: _ =>
      (some { type := s.type
              extractedInfo := some (.extracted info)
              pendingQuestions := some questions
              receiptUrl := s.receiptUrl
              userName := s.userName
              collectionType := none },
       [.sendMessage q])

/-- capitalizeName restricted to one word: upper-case the first character,
lower-case the rest. -/
def capWord (cs : List Char) : List Char :=
  match cs with
  | [] => []
  | c :: rest => c.toUpper :: rest.map Char.toLower

/-- capitalizeName of the source: split on spaces, capitalize each word,
join with spaces. -/
def capitalizeName (name : String) : String :=
  String.mk (joinChar ' ' ((splitChar ' ' name.data).map capWord))

/-- The questions whose skip-rejection branch treats them as required:
the current question contains one of these substrings. -/
def flatRequiredKeywordHit (q : String) : Bool :=
  jsIncludes q "flat number" || jsIncludes q "floor number" ||
  jsIncludes q "owner name" || jsIncludes q "maintenance amount" ||
  jsIncludes q "phone number" || jsIncludes q "occupied"

/-- The keyword dispatch of handleFlatInfoInput's regular-input branch,
in source order (note: the occupied check precedes the tenant name check). -/
def fillFlatField (f : FlatInfo) (q answer : String) : FlatInfo :=
  if jsIncludes q "flat number" then { f with flatNumber := some answer }
  else if jsIncludes q "floor number" then { f with floorNumber := some answer }
  else if jsIncludes q "owner name" then { f with ownerName := some (capitalizeName answer) }
  else if jsIncludes q "maintenance amount" then { f with maintenanceAmount := some (jsParseFloat answer) }
  else if jsIncludes q "phone number" then { f with phoneNumber := some answer }
  else if jsIncludes q "occupied" then { f with isOccupied := some (jsToLower answer == "yes") }
  else if jsIncludes q "tenant name" then { f with tenantName := some (capitalizeName answer) }
  else if jsIncludes q "email" then { f with email := some answer }
  else f

/-- The save step shared by both exhaustion branches of handleFlatInfoInput:
reject when a required field is falsy, otherwise normalize and upsert;
on adapter failure report and keep the session. -/
def saveFlatInfo (env : Env) (s : UserState) (f : FlatInfo) :
    Option UserState × List Effect :=
  if optStrFalsy f.flatNumber || optStrFalsy f.floorNumber || optStrFalsy f.ownerName ||
     optNumFalsy f.maintenanceAmount || optStrFalsy f.phoneNumber then
    (some s, [.sendMessage flatSaveErrorMessage])
  else
    let complete : CompleteFlatInfo :=
      { flatNumber := f.flatNumber.getD ""
        floorNumber := f.floorNumber.getD ""
        ownerName := capitalizeName (f.ownerName.getD "")
        maintenanceAmount := f.maintenanceAmount.getD .nan
        phoneNumber := f.phoneNumber.getD ""
        isOccupied := f.isOccupied.getD false
        lastUpdated := env.nowIso
        tenantName := match f.tenantName with
          | none => none
          | some t => if t == "" then none else some (capitalizeName t)
        email := f.email }
    if env.updateFlatOk then
      (none, [.updateFlatInfo complete, .sendMessage flatSavedMessage])
    else
      (some s, [.updateFlatInfo complete, .sendMessage flatSaveErrorMessage])

/-- handleFlatInfoInput: drive the fixed FlatInfo question script, rejecting
skip on questions whose text hits a required keyword, and saving when the
script is exhausted. -/
def handleFlatInfoInput (env : Env) (s : UserState) (text : String) :
    Option UserState × List Effect :=
  match s.pendingQuestions with
  | none => (some s, [])
  | some [] => (some s, [])
  | some (currentQuestion :: remainingQuestions) =>
    let answer := jsTrim text
    let flatInfo : FlatInfo :=
      match s.extractedInfo with
      | some (.flat f) => f
      | _ => {}
    if jsToLower answer == "skip" then
      if flatRequiredKeywordHit currentQuestion then
        (some s, [.sendMessage requiredFieldMessage])
      else
        match remainingQuestions with
        | q :: _ =>
          (some { type := .flat_info
                  extractedInfo := some (.flat flatInfo)
                  pendingQuestions := some remainingQuestions
                  receiptUrl := none
                  userName := s.userName
                  collectionType := none },
           [.sendMessage q])
        | [] => saveFlatInfo env s flatInfo
    else
      let flatInfo' := fillFlatField flatInfo currentQuestion answer
      match remainingQuestions with
      | q :: _ =>
        (some { type := .flat_info
                extractedInfo := some (.flat flatInfo')
                pendingQuestions := some remainingQuestions
                receiptUrl := none
                userName := s.userName
                collectionType := none },
         [.sendMessage q])
      | [] => saveFlatInfo env s flatInfo'

/-- handleCollectionInfoInput: the short collection script. On the amount
question a valid positive amount immediately initializes the collection
period and ends the session; the success path's getCollection read and
summary message are collapsed into the initCollectionOk oracle, since the
source wraps both in one try/catch. -/
def handleCollectionInfoInput (env : Env) (s : UserState) (text : String) :
    Option UserState × List Effect :=
  match s.pendingQuestions with
  | none => (some s, [])
  | some [] => (some s, [])
  | some (currentQuestion :: remainingQuestions) =>
    let answer := jsTrim text
    if jsIncludes currentQuestion "amount" then
      match jsParseFloat answer with
      | .nan => (some s, [.sendMessage invalidAmountMessage])
      | .num amount =>
        if amount ≤ 0 then (some s, [.sendMessage invalidAmountMessage])
        else if env.initCollectionOk then
          (none, [.initializeCollection amount, .sendMessage collectionCreatedMessage,
                  .getCollection, .collectionSummary])
        else
          (some s, [.initializeCollection amount, .sendMessage collectionErrorMessage])
    else if jsIncludes currentQuestion "name" then
      let collectionType' :=
        match s.collectionType with
        | some c => some { c with description := some answer }
        | none => none
      match remainingQuestions with
      | q :: _ =>
        (some { s with pendingQuestions := some remainingQuestions,
                       collectionType := collectionType' },
         [.sendMessage q])
      | [] => (some s, [])
    else if jsIncludes currentQuestion "description" then
      let collectionType' :=
        if jsToLower answer != "skip" then
          match s.collectionType with
          | some c => some { c with description := some answer }
          | none => none
        else s.collectionType
      match remainingQuestions with
      | q :: _ =>
        (some { s with pendingQuestions := some remainingQuestions,
                       collectionType := collectionType' },
         [.sendMessage q])
      | [] => (some s, [])
    else (some s, [])

/-- handleTextMessage: the text entry point of the dialogue engine.
Commands are ignored here, all other text is lowercased, then the branches
run in source order: greeting, missing session, flat_info, collection_info,
yes-confirmation, no-confirmation, pending follow-up question, comma-separated
manual entry. -/
def handleTextMessage (env : Env) (st : Option UserState) (input : String) :
    Option UserState × List Effect :=
  if jsStartsWithSlash input then (st, [])
  else
    let text := jsToLower input
    if greetings.contains text then (st, [.sendMessage welcomeMessage])
    else match st with
    | none => (none, [.sendMessage choosePrompt])
    | some s =>
      if s.type == .flat_info then handleFlatInfoInput env s text
      else if s.type == .collection_info then handleCollectionInfoInput env s text
      else if text == "yes" && isExtractedInfo s.extractedInfo then
        match s.extractedInfo with
        | some (.extracted e) =>
          let entry := mkEntry e s env.today
          if env.addEntryOk then
            (none, [.addEntry entry, .sendMessage entryAddedMessage])
          else
            (some s, [.addEntry entry, .sendMessage entryErrorMessage])
        | _ => (some s, [])
      else if text == "no" && isExtractedInfo s.extractedInfo then
        match s.extractedInfo with
        | some (.extracted e) => askFollowUpQuestions env (some s) e
        | _ => (some s, [])
      else match s.pendingQuestions with
      | some (currentQuestion :: remainingQuestions) =>
        let answer := jsTrim text
        let base : ExtractedInfo :=
          match s.extractedInfo with
          | some (.extracted e) => e
          | _ => { confidence := 0 }
        let updatedInfo :=
          if jsIncludes currentQuestion "amount" then
            { base with amount := some (jsParseFloat answer) }
          else if jsIncludes currentQuestion "category" then
            { base with category := some answer }
          else if jsIncludes currentQuestion "description" then
            { base with description := some answer }
          else if jsIncludes currentQuestion "date" then
            { base with date := some answer }
          else base
        let newState : UserState :=
          { type := s.type
            extractedInfo := some (.extracted updatedInfo)
            pendingQuestions := some remainingQuestions
            receiptUrl := s.receiptUrl
            userName := s.userName
            collectionType := none }
        match remainingQuestions with
        | q :: _ => (some newState, [.sendMessage q])
        | [] => confirmAndSaveEntry env (some newState) updatedInfo
      | _ =>
        if jsIncludes text "," then
          let tokens := (jsSplitChar ',' text).map jsTrim
          let entry : ExtractedInfo :=
            { amount := some (jsParseFloat ((tokens.get? 0).getD ""))
              category := tokens.get? 1
              description := tokens.get? 2
              date := some env.today
              type := some (getEntryType s.type)
              confidence := 1 }
          confirmAndSaveEntry env (some s) entry
        else (some s, [])

/-- handlePhotoMessage: the photo entry point. The transport and adapter
results are supplied as parameters: uploadResult is the Drive URL or a
failure, ocrResult the recognized text or a failure, extractResult the AI
extraction or a failure. Each stage emits its adapter-call effect when
attempted; failures reproduce the source's catch structure (upload and OCR
failures surface the outer catch's manual-entry message, extraction failure
the inner catch's message). -/
def handlePhotoMessage (env : Env) (st : Option UserState) (hasPhoto : Bool)
    (uploadResult : Option String) (ocrResult : Option String)
    (extractResult : Option ExtractedInfo) : Option UserState × List Effect :=
  if !hasPhoto then (st, [.sendMessage noPhotoMessage])
  else match st with
  | none => (none, [.sendMessage choosePrompt])
  | some s =>
    let prefixMsgs : List Effect :=
      [.sendMessage processingMessage, .sendMessage uploadingMessage, .uploadReceipt]
    match uploadResult with
    | none => (some s, prefixMsgs ++ [.sendMessage receiptErrorMessage])
    | some driveUrl =>
      let s1 : UserState := { s with receiptUrl := some driveUrl }
      let afterUpload := prefixMsgs ++ [.sendMessage extractingMessage, .ocrRecognize]
      match ocrResult with
      | none => (some s1, afterUpload ++ [.sendMessage receiptErrorMessage])
      | some text =>
        if jsTrim text == "" then (some s1, afterUpload ++ [.sendMessage noTextMessage])
        else
          let afterOcr := afterUpload ++ [.sendMessage analyzingMessage, .aiExtract]
          match extractResult with
          | none => (some s1, afterOcr ++ [.sendMessage geminiErrorMessage])
          | some extractedInfo =>
            let extractedInfo' :=
              if s.type == .expense then { extractedInfo with type := some .expense }
              else if s.type == .income then { extractedInfo with type := some .income }
              else extractedInfo
            if extractedInfo'.confidence > mkRat 7 10 then
              let r := confirmAndSaveEntry env (some s1) extractedInfo'
              (r.1, afterOcr ++ r.2)
            else
              let r := askFollowUpQuestions env (some s1) extractedInfo'
              (r.1, afterOcr ++ r.2)

/-- The UserState object rebuilt at the top of the callback_query handler:
every field of the current state is carried over (userName falling back to
the presser's display name, type falling back to expense); the object
literal has no collectionType field. -/
def callbackBaseState (cur : Option UserState) (fromName : String) : UserState :=
  { type := match cur with | some c => c.type | none => .expense
    userName := some (jsOrStr (cur.bind UserState.userName) fromName)
    extractedInfo := cur.bind UserState.extractedInfo
    pendingQuestions := cur.bind UserState.pendingQuestions
    receiptUrl := cur.bind UserState.receiptUrl
    collectionType := none }

/-- The state stored by the add_expense inline button. -/
def addExpenseCallback (cur : Option UserState) (fromName : String) : UserState :=
  { callbackBaseState cur fromName with type := .expense }

/-- The state stored by the add_income inline button. -/
def addIncomeCallback (cur : Option UserState) (fromName : String) : UserState :=
  { callbackBaseState cur fromName with type := .income }

/-- The state stored by the /expense command: a fresh object holding only
the mode and the sender's display name. -/
def expenseCommand (fromName : String) : UserState :=
  { type := .expense, userName := some fromName }

/-- The state stored by the /income command. -/
def incomeCommand (fromName : String) : UserState :=
  { type := .income, userName := some fromName }

/-- A flat as initializeCollection consumes it (the two columns it reads
from the Flat Information sheet). -/
structure Flat where
  flatNumber : String
  ownerName : String
deriving DecidableEq

/-- The row appended for one flat: number, owner, amount, Pending, blank
payment date, blank marker. amountStr stands for amount.toString(). -/
def mkCollectionRow (amountStr : String) (f : Flat) : List String :=
  [f.flatNumber, f.ownerName, amountStr, "Pending", "", ""]

/-- GoogleSheetsService.initializeCollection over the collection sheet's
rows: skip the header row, collect the existing first-column values, and
append one Pending row per flat whose number is not yet present. -/
def initializeCollection (flats : List Flat) (amountStr : String)
    (sheet : List (List String)) : List (List String) :=
  let existingFlats := (sheet.drop 1).map (fun row => row.get? 0)
  let newEntries :=
    (flats.filter (fun f => !(existingFlats.contains (some f.flatNumber)))).map
      (mkCollectionRow amountStr)
  sheet ++ newEntries

/-- Predicate picking the persistence-append effects out of a turn's effects. -/
def isAddEntryEff : Effect → Bool
  | .addEntry _ => true
  | _ => false

/-- A concrete environment where every adapter call succeeds. -/
def env0 : Env :=
  { addEntryOk := true, updateFlatOk := true, initCollectionOk := true,
    today := "2025-01-15", nowIso := "2025-01-15T10:00:00.000Z" }

/-- A concrete environment where the persistence append fails. -/
def envFail : Env := { env0 with addEntryOk := false }

/-- A concrete fully extracted draft. -/
def e0 : ExtractedInfo :=
  { amount := some (.num 500), category := some "maintenance",
    description := some "cleaning", date := some "2025-01-10",
    type := some .expense, confidence := mkRat 9 10 }

/-- A concrete session awaiting confirmation in expense mode. -/
def s0 : UserState :=
  { type := .expense, extractedInfo := some (.extracted e0),
    receiptUrl := some "http://drive/r1", userName := some "Alice" }

/-- The literal yes is not a slash command. -/
theorem yes_not_command : jsStartsWithSlash "yes" = false := by decide

/-- Claim C1: for a session in Expense or Income mode awaiting confirmation,
replying yes triggers exactly one persistence append whose record type
equals the session's originating mode, and on success the chat's session is
deleted from the session store. -/
theorem yes_commits_once_and_deletes
    (env : Env) (s : UserState) (e : ExtractedInfo)
    (hmode : s.type = .expense ∨ s.type = .income)
    (hinfo : s.extractedInfo = some (.extracted e)) :
    ∃ en, (handleTextMessage env (some s) "yes").2.filter isAddEntryEff
            = [Effect.addEntry en]
      ∧ ((s.type = .expense ∧ en.type = .expense)
          ∨ (s.type = .income ∧ en.type = .income))
      ∧ (env.addEntryOk = true → (handleTextMessage env (some s) "yes").1 = none) := by
  refine ⟨mkEntry e s env.today, ?_⟩
  rcases hmode with h | h <;>
    cases hok : env.addEntryOk <;>
      simp [handleTextMessage, h, hinfo, hok, jsToLower, greetings, isExtractedInfo,
            isAddEntryEff, List.filter, mkEntry, getEntryType, yes_not_command]

/-- Witness for C1 at a concrete session. -/
theorem yes_commits_once_and_deletes_witness :
    ∃ en, (handleTextMessage env0 (some s0) "yes").2.filter isAddEntryEff
            = [Effect.addEntry en]
      ∧ ((s0.type = .expense ∧ en.type = .expense)
          ∨ (s0.type = .income ∧ en.type = .income))
      ∧ (env0.addEntryOk = true → (handleTextMessage env0 (some s0) "yes").1 = none) :=
  yes_commits_once_and_deletes env0 s0 e0 (Or.inl rfl) rfl

/-- Claim C3: when the persistence append performed on yes fails, the engine
reports an error and leaves the session in the store exactly as it was. -/
theorem yes_commit_failure_keeps_session
    (env : Env) (s : UserState) (e : ExtractedInfo)
    (hfail : env.addEntryOk = false)
    (hmode : s.type = .expense ∨ s.type = .income)
    (hinfo : s.extractedInfo = some (.extracted e)) :
    handleTextMessage env (some s) "yes"
      = (some s, [.addEntry (mkEntry e s env.today), .sendMessage entryErrorMessage]) := by
  rcases hmode with h | h <;>
    simp [handleTextMessage, h, hinfo, hfail, jsToLower, greetings, isExtractedInfo,
          yes_not_command]

/-- Witness for C3 at a concrete session. -/
theorem yes_commit_failure_keeps_session_witness :
    handleTextMessage envFail (some s0) "yes"
      = (some s0, [.addEntry (mkEntry e0 s0 envFail.today),
                   .sendMessage entryErrorMessage]) :=
  yes_commit_failure_keeps_session envFail s0 e0 rfl (Or.inl rfl) rfl

/-- In a list whose image under g has no duplicates, exactly one element
shares its g-value with a given member. -/
theorem countP_eq_one_of_nodup_map {α β : Type} [DecidableEq β]
    (g : α → β) (a : α) :
    ∀ (l : List α), (l.map g).Nodup → a ∈ l →
      l.countP (fun x => decide (g x = g a)) = 1 := by
  intro l
  induction l with
  | nil => intro _ ha; cases ha
  | cons x xs ih =>
    intro hn ha
    rw [List.map_cons, List.nodup_cons] at hn
    rw [List.countP_cons]
    rcases List.mem_cons.mp ha with rfl | hmem
    · have hzero : xs.countP (fun y => decide (g y = g a)) = 0 := by
        rw [List.countP_eq_zero]
        intro y hy hgy
        rw [decide_eq_true_eq] at hgy
        exact hn.1 (List.mem_map.mpr ⟨y, hy, hgy⟩)
      simp [hzero]
    · have hone := ih hn.2 hmem
      have hhead : (decide (g x = g a)) = false := by
        rw [decide_eq_false_iff_not]
        intro hgx
        exact hn.1 (List.mem_map.mpr ⟨a, hmem, hgx.symm⟩)
      simp [hone, hhead]

/-- Claim C2: initializing a collection period is idempotent. On a sheet
holding only its header row, initialization appends exactly one Pending
row per known flat (flat numbers are assumed distinct, being the natural
key of the Flat Information sheet); re-running initialization on any
nonempty sheet it already produced appends zero further rows. -/
theorem initializeCollection_idempotent
    (flats : List Flat) (amountStr : String) (hdr : List String)
    (sheet : List (List String))
    (hnodup : (flats.map Flat.flatNumber).Nodup)
    (hne : sheet ≠ []) :
    ((initializeCollection flats amountStr [hdr]).drop 1
        = flats.map (mkCollectionRow amountStr))
    ∧ (∀ f ∈ flats,
        ((initializeCollection flats amountStr [hdr]).drop 1).countP
            (fun row => decide (row.get? 0 = some f.flatNumber)) = 1)
    ∧ (∀ row ∈ (initializeCollection flats amountStr [hdr]).drop 1,
        row.get? 3 = some "Pending")
    ∧ initializeCollection flats amountStr (initializeCollection flats amountStr sheet)
        = initializeCollection flats amountStr sheet := by
  have hfirst : (initializeCollection flats amountStr [hdr]).drop 1
      = flats.map (mkCollectionRow amountStr) := by
    simp [initializeCollection]
  refine ⟨hfirst, ?_, ?_, ?_⟩
  · intro f hf
    rw [hfirst, List.countP_map]
    have hcongr : flats.countP
        ((fun row => decide (row.get? 0 = some f.flatNumber)) ∘ mkCollectionRow amountStr)
        = flats.countP (fun x => decide (x.flatNumber = f.flatNumber)) := by
      refine List.countP_congr ?_
      intro x _
      simp [mkCollectionRow]
    rw [hcongr]
    exact countP_eq_one_of_nodup_map Flat.flatNumber f flats hnodup hf
  · intro row hrow
    rw [hfirst] at hrow
    obtain ⟨f, _, rfl⟩ := List.mem_map.mp hrow
    rfl
  · cases sheet with
    | nil => exact absurd rfl hne
    | cons h0 t =>
      have hmem : ∀ f ∈ flats,
          some f.flatNumber ∈
            (((initializeCollection flats amountStr (h0 :: t)).drop 1).map
              (fun row => row.get? 0)) := by
        intro f hf
        show some f.flatNumber ∈
          ((t ++ (flats.filter (fun g =>
              !((t.map (fun row => row.get? 0)).contains (some g.flatNumber)))).map
                (mkCollectionRow amountStr)).map (fun row => row.get? 0))
        rw [List.map_append, List.mem_append]
        by_cases hin : some f.flatNumber ∈ t.map (fun row => row.get? 0)
        · exact Or.inl hin
        · refine Or.inr ?_
          have hkeep : f ∈ flats.filter (fun g =>
              !((t.map (fun row => row.get? 0)).contains (some g.flatNumber))) := by
            rw [List.mem_filter]
            refine ⟨hf, ?_⟩
            simpa [List.elem_iff] using hin
          exact List.mem_map.mpr
            ⟨mkCollectionRow amountStr f, List.mem_map.mpr ⟨f, hkeep, rfl⟩, rfl⟩
      have hnil : flats.filter (fun g =>
          !((((initializeCollection flats amountStr (h0 :: t)).drop 1).map
              (fun row => row.get? 0)).contains (some g.flatNumber))) = [] := by
        rw [List.filter_eq_nil_iff]
        intro f hf
        have := hmem f hf
        simpa [List.elem_iff] using this
      calc initializeCollection flats amountStr
              (initializeCollection flats amountStr (h0 :: t))
          = initializeCollection flats amountStr (h0 :: t) ++
              (flats.filter (fun g =>
                !((((initializeCollection flats amountStr (h0 :: t)).drop 1).map
                    (fun row => row.get? 0)).contains (some g.flatNumber)))).map
                (mkCollectionRow amountStr) := rfl
        _ = initializeCollection flats amountStr (h0 :: t) := by
              rw [hnil]; simp

/-- Two concrete flats with distinct numbers. -/
def flats0 : List Flat := [{ flatNumber := "101", ownerName := "Alice" },
                           { flatNumber := "102", ownerName := "Bob" }]

/-- The header row of a collection sheet. -/
def collectionHeader : List String :=
  ["Flat Number", "Owner Name", "Amount", "Status", "Payment Date", "Added By"]

/-- Witness for C2 at two concrete flats. -/
theorem initializeCollection_idempotent_witness :
    ((initializeCollection flats0 "500" [collectionHeader]).drop 1
        = flats0.map (mkCollectionRow "500"))
    ∧ (∀ f ∈ flats0,
        ((initializeCollection flats0 "500" [collectionHeader]).drop 1).countP
            (fun row => decide (row.get? 0 = some f.flatNumber)) = 1)
    ∧ (∀ row ∈ (initializeCollection flats0 "500" [collectionHeader]).drop 1,
        row.get? 3 = some "Pending")
    ∧ initializeCollection flats0 "500" (initializeCollection flats0 "500" [collectionHeader])
        = initializeCollection flats0 "500" [collectionHeader] :=
  initializeCollection_idempotent flats0 "500" collectionHeader [collectionHeader]
    (by decide) (by decide)

/-- The required fields of a transaction draft, in the fixed order the
engine checks them. -/
inductive ReqField where
  | amount : ReqField
  | category : ReqField
  | description : ReqField
  | date : ReqField
deriving DecidableEq

/-- The fixed order amount, category, description, date. -/
def requiredFieldsOrder : List ReqField :=
  [.amount, .category, .description, .date]

/-- Is a required field empty (JavaScript-falsy) in the draft? -/
def fieldIsEmpty (e : ExtractedInfo) : ReqField → Bool
  | .amount => optNumFalsy e.amount
  | .category => optStrFalsy e.category
  | .description => optStrFalsy e.description
  | .date => optStrFalsy e.date

/-- The follow-up question belonging to each required field. -/
def questionOf : ReqField → String
  | .amount => amountQuestion
  | .category => categoryQuestion
  | .description => descriptionQuestion
  | .date => dateQuestion

/-- The engine's queued question list is exactly one question per empty
required field, in the fixed field order. -/
theorem followUpQuestions_spec (e : ExtractedInfo) :
    followUpQuestions e = (requiredFieldsOrder.filter (fieldIsEmpty e)).map questionOf := by
  cases h1 : optNumFalsy e.amount <;> cases h2 : optStrFalsy e.category <;>
    cases h3 : optStrFalsy e.description <;> cases h4 : optStrFalsy e.date <;>
      simp [followUpQuestions, requiredFieldsOrder, fieldIsEmpty, questionOf,
            h1, h2, h3, h4, List.filter]

/-- The follow-up list ignores the draft's type tag. -/
theorem followUpQuestions_type_irrel (e : ExtractedInfo) (t : Option EntryType) :
    followUpQuestions { e with type := t } = followUpQuestions e := by
  simp [followUpQuestions]

/-- The chat messages and adapter calls a successful photo turn emits
before the confirmation-or-questions decision. -/
def photoStagePrefix : List Effect :=
  [.sendMessage processingMessage, .sendMessage uploadingMessage, .uploadReceipt,
   .sendMessage extractingMessage, .ocrRecognize,
   .sendMessage analyzingMessage, .aiExtract]

/-- Claim C4: after field extraction in Expense/Income mode, confidence
strictly above 0.7 goes straight to the confirmation prompt with no
follow-up question queued or asked, while confidence at most 0.7 queues
exactly one follow-up question per required field that is empty after
extraction, in the fixed order amount, category, description, date,
asking the first (and falls through to confirmation when no field is
empty). -/
theorem extraction_confidence_gate
    (env : Env) (s : UserState) (driveUrl ocrText : String) (e : ExtractedInfo)
    (hmode : s.type = .expense ∨ s.type = .income)
    (htext : (jsTrim ocrText == "") = false) :
    (e.confidence > mkRat 7 10 →
      handlePhotoMessage env (some s) true (some driveUrl) (some ocrText) (some e)
        = (some { type := s.type
                  extractedInfo := some (.extracted { e with type := some (getEntryType s.type) })
                  pendingQuestions := none
                  receiptUrl := some driveUrl
                  userName := s.userName
                  collectionType := none },
           photoStagePrefix ++
             [.confirmPrompt (mkEntry { e with type := some (getEntryType s.type) }
                { s with receiptUrl := some driveUrl } env.today)]))
    ∧ (¬ e.confidence > mkRat 7 10 →
        (requiredFieldsOrder.filter (fieldIsEmpty e)).map questionOf = [] →
        handlePhotoMessage env (some s) true (some driveUrl) (some ocrText) (some e)
          = (some { type := s.type
                    extractedInfo := some (.extracted { e with type := some (getEntryType s.type) })
                    pendingQuestions := none
                    receiptUrl := some driveUrl
                    userName := s.userName
                    collectionType := none },
             photoStagePrefix ++
               [.confirmPrompt (mkEntry { e with type := some (getEntryType s.type) }
                  { s with receiptUrl := some driveUrl } env.today)]))
    ∧ (¬ e.confidence > mkRat 7 10 →
        ∀ q qs, (requiredFieldsOrder.filter (fieldIsEmpty e)).map questionOf = q :: qs →
        handlePhotoMessage env (some s) true (some driveUrl) (some ocrText) (some e)
          = (some { type := s.type
                    extractedInfo := some (.extracted { e with type := some (getEntryType s.type) })
                    pendingQuestions := some (q :: qs)
                    receiptUrl := some driveUrl
                    userName := s.userName
                    collectionType := none },
             photoStagePrefix ++ [.sendMessage q])) := by
  have hfe : fieldIsEmpty { e with type := some (getEntryType s.type) } = fieldIsEmpty e := by
    funext fld
    cases fld <;> rfl
  refine ⟨?_, ?_, ?_⟩
  · intro hconf
    rcases hmode with h | h <;>
      simp [handlePhotoMessage, h, htext, hconf, confirmAndSaveEntry,
            photoStagePrefix, getEntryType]
  · intro hconf hnoq
    have hfu : followUpQuestions { e with type := some (getEntryType s.type) } = [] := by
      rw [followUpQuestions_type_irrel, followUpQuestions_spec, hnoq]
    rcases hmode with h | h <;>
      rw [h] at hfu <;> simp only [getEntryType] at hfu <;>
      simp [handlePhotoMessage, h, htext, hconf, askFollowUpQuestions, confirmAndSaveEntry,
            hfu, photoStagePrefix, getEntryType]
  · intro hconf q qs hq
    have hfu : followUpQuestions { e with type := some (getEntryType s.type) } = q :: qs := by
      rw [followUpQuestions_type_irrel, followUpQuestions_spec, hq]
    rcases hmode with h | h <;>
      rw [h] at hfu <;> simp only [getEntryType] at hfu <;>
      simp [handlePhotoMessage, h, htext, hconf, askFollowUpQuestions,
            hfu, photoStagePrefix, getEntryType]

/-- A fresh session in expense mode, as the /expense command leaves it. -/
def sManual : UserState := { type := .expense, userName := some "Alice" }

/-- The extraction of the spec's low-confidence scenario: amount found,
everything else missing, confidence 0.4. -/
def e4 : ExtractedInfo := { amount := some (.num 1000), confidence := mkRat 2 5 }

/-- Witness for C4 at the spec's low-confidence scenario. -/
theorem extraction_confidence_gate_witness :
    (e4.confidence > mkRat 7 10 →
      handlePhotoMessage env0 (some sManual) true (some "http://drive/r1") (some "shop 1000") (some e4)
        = (some { type := sManual.type
                  extractedInfo := some (.extracted { e4 with type := some (getEntryType sManual.type) })
                  pendingQuestions := none
                  receiptUrl := some "http://drive/r1"
                  userName := sManual.userName
                  collectionType := none },
           photoStagePrefix ++
             [.confirmPrompt (mkEntry { e4 with type := some (getEntryType sManual.type) }
                { sManual with receiptUrl := some "http://drive/r1" } env0.today)]))
    ∧ (¬ e4.confidence > mkRat 7 10 →
        (requiredFieldsOrder.filter (fieldIsEmpty e4)).map questionOf = [] →
        handlePhotoMessage env0 (some sManual) true (some "http://drive/r1") (some "shop 1000") (some e4)
          = (some { type := sManual.type
                    extractedInfo := some (.extracted { e4 with type := some (getEntryType sManual.type) })
                    pendingQuestions := none
                    receiptUrl := some "http://drive/r1"
                    userName := sManual.userName
                    collectionType := none },
             photoStagePrefix ++
               [.confirmPrompt (mkEntry { e4 with type := some (getEntryType sManual.type) }
                  { sManual with receiptUrl := some "http://drive/r1" } env0.today)]))
    ∧ (¬ e4.confidence > mkRat 7 10 →
        ∀ q qs, (requiredFieldsOrder.filter (fieldIsEmpty e4)).map questionOf = q :: qs →
        handlePhotoMessage env0 (some sManual) true (some "http://drive/r1") (some "shop 1000") (some e4)
          = (some { type := sManual.type
                    extractedInfo := some (.extracted { e4 with type := some (getEntryType sManual.type) })
                    pendingQuestions := some (q :: qs)
                    receiptUrl := some "http://drive/r1"
                    userName := sManual.userName
                    collectionType := none },
             photoStagePrefix ++ [.sendMessage q])) :=
  extraction_confidence_gate env0 sManual "http://drive/r1" "shop 1000" e4
    (Or.inl rfl) (by decide)

/-- A text containing a comma is neither the yes nor the no answer. -/
theorem comma_text_not_yes_no (t : String) (h : jsIncludes t "," = true) :
    (t == "yes") = false ∧ (t == "no") = false := by
  constructor
  · cases heq : t == "yes" with
    | false => rfl
    | true =>
      rw [eq_of_beq heq] at h
      exact absurd h (by decide)
  · cases heq : t == "no" with
    | false => rfl
    | true =>
      rw [eq_of_beq heq] at h
      exact absurd h (by decide)

/-- A text containing a comma is not one of the greeting words. -/
theorem comma_text_not_greeting (t : String) (h : jsIncludes t "," = true) :
    t ∉ greetings := by
  intro hmem
  simp only [greetings, List.mem_cons, List.not_mem_nil, or_false] at hmem
  rcases hmem with rfl | rfl | rfl | rfl <;> exact absurd h (by decide)

/-- The draft the manual comma-separated entry path builds: the inbound
text is lowercased, split on commas, the pieces trimmed; the first token
is parsed as a float, the second and third become category and
description, the date is today and the confidence 1. -/
def manualDraft (env : Env) (s : UserState) (input : String) : ExtractedInfo :=
  let tokens := (jsSplitChar ',' (jsToLower input)).map jsTrim
  { amount := some (jsParseFloat ((tokens.get? 0).getD ""))
    category := tokens.get? 1
    description := tokens.get? 2
    date := some env.today
    type := some (getEntryType s.type)
    confidence := 1 }

/-- Claim C5 as amended: for comma-containing free text in Expense/Income
mode with no pending question, the engine lowercases the text, splits it
on commas into trimmed tokens read positionally, builds the draft with
amount = parseFloat of the first token, category and description the
second and third tokens of the lowercased text, date today, confidence 1,
and presents the confirmation prompt with no follow-up question. -/
theorem manual_entry_lowercased
    (env : Env) (s : UserState) (input : String)
    (hmode : s.type = .expense ∨ s.type = .income)
    (hnoq : s.pendingQuestions = none ∨ s.pendingQuestions = some [])
    (hslash : jsStartsWithSlash input = false)
    (hcomma : jsIncludes (jsToLower input) "," = true) :
    handleTextMessage env (some s) input
      = (some { type := s.type
                extractedInfo := some (.extracted (manualDraft env s input))
                pendingQuestions := none
                receiptUrl := s.receiptUrl
                userName := s.userName
                collectionType := none },
         [.confirmPrompt (mkEntry (manualDraft env s input) s env.today)]) := by
  obtain ⟨hyes, hno⟩ := comma_text_not_yes_no (jsToLower input) hcomma
  have hgreet := comma_text_not_greeting (jsToLower input) hcomma
  rcases hmode with h | h <;> rcases hnoq with hq | hq <;>
    simp [handleTextMessage, hslash, hgreet, hyes, hno, hcomma, h, hq,
          manualDraft, confirmAndSaveEntry]

/-- Witness for C5 (amended) at the spec's manual-entry scenario. -/
theorem manual_entry_lowercased_witness :
    handleTextMessage env0 (some sManual) "500, Maintenance, Lobby cleaning"
      = (some { type := sManual.type
                extractedInfo := some (.extracted
                  (manualDraft env0 sManual "500, Maintenance, Lobby cleaning"))
                pendingQuestions := none
                receiptUrl := sManual.receiptUrl
                userName := sManual.userName
                collectionType := none },
         [.confirmPrompt (mkEntry (manualDraft env0 sManual "500, Maintenance, Lobby cleaning")
            sManual env0.today)]) :=
  manual_entry_lowercased env0 sManual "500, Maintenance, Lobby cleaning"
    (Or.inl rfl) (Or.inl rfl) (by decide) (by decide)

/-- Counterexample to C5 as stated: for the input containing the tokens
Maintenance and Lobby cleaning, the draft holds the lowercased tokens
maintenance and lobby cleaning, not the verbatim second and third tokens
of the inbound text. -/
theorem manual_entry_verbatim_counterexample :
    (handleTextMessage env0 (some sManual) "500, Maintenance, Lobby cleaning").1
      = some { type := .expense,
               extractedInfo := some (.extracted
                 { amount := some (.num 500), category := some "maintenance",
                   description := some "lobby cleaning", date := some "2025-01-15",
                   type := some .expense, confidence := 1 }),
               pendingQuestions := none, receiptUrl := none,
               userName := some "Alice", collectionType := none }
    ∧ (handleTextMessage env0 (some sManual) "500, Maintenance, Lobby cleaning").1
      ≠ some { type := .expense,
               extractedInfo := some (.extracted
                 { amount := some (.num 500), category := some "Maintenance",
                   description := some "Lobby cleaning", date := some "2025-01-15",
                   type := some .expense, confidence := 1 }),
               pendingQuestions := none, receiptUrl := none,
               userName := some "Alice", collectionType := none } :=
  ⟨by decide, by decide⟩

/-- A session in expense mode. -/
def sPhoto : UserState := { type := .expense, userName := some "Carol" }

/-- A high-confidence extraction that found only the amount. -/
def ePartial : ExtractedInfo := { amount := some (.num 1200), confidence := mkRat 9 10 }

/-- The awaiting-confirmation session holding the partial draft. -/
def sConfirmPartial : UserState :=
  { type := .expense, extractedInfo := some (.extracted ePartial),
    receiptUrl := some "http://drive/r2", userName := some "Carol" }

/-- Claim C6 as amended: the append triggered by yes receives the draft
with JavaScript defaults substituted for empty required fields (amount 0,
category and description the empty string, date today) instead of being
blocked; hence the committed date is non-empty whenever today is, but the
committed amount may be 0 and category or description empty when the
confirmed draft lacked them. -/
theorem yes_commit_defaults_empty_fields
    (env : Env) (s : UserState) (e : ExtractedInfo)
    (hmode : s.type = .expense ∨ s.type = .income)
    (hinfo : s.extractedInfo = some (.extracted e)) :
    (handleTextMessage env (some s) "yes").2.filter isAddEntryEff
        = [.addEntry (mkEntry e s env.today)]
    ∧ (env.today ≠ "" → (mkEntry e s env.today).date ≠ "")
    ∧ (optStrFalsy e.category = true → (mkEntry e s env.today).category = "")
    ∧ (optStrFalsy e.description = true → (mkEntry e s env.today).description = "")
    ∧ (optNumFalsy e.amount = true → (mkEntry e s env.today).amount = 0) := by
  refine ⟨?_, ?_, ?_, ?_, ?_⟩
  · rcases hmode with h | h <;>
      cases hok : env.addEntryOk <;>
        simp [handleTextMessage, h, hinfo, hok, jsToLower, greetings, isExtractedInfo,
              isAddEntryEff, List.filter, yes_not_command]
  · intro ht
    show jsOrStr e.date env.today ≠ ""
    cases hd : e.date with
    | none => simpa [jsOrStr] using ht
    | some d =>
      by_cases hde : d = ""
      · subst hde; simpa [jsOrStr] using ht
      · simp [jsOrStr, hde]
  · intro hc
    show jsOrStr e.category "" = ""
    cases hd : e.category with
    | none => rfl
    | some c =>
      rw [hd, optStrFalsy] at hc
      simp [jsOrStr, hc]
  · intro hc
    show jsOrStr e.description "" = ""
    cases hd : e.description with
    | none => rfl
    | some c =>
      rw [hd, optStrFalsy] at hc
      simp [jsOrStr, hc]
  · intro hc
    show jsOrNum e.amount 0 = 0
    cases hd : e.amount with
    | none => rfl
    | some n =>
      cases n with
      | nan => rfl
      | num q =>
        rw [hd] at hc
        simp only [optNumFalsy, JsNum.falsy] at hc
        simp [jsOrNum, hc]

/-- Witness for C6 (amended) at a draft lacking category and description. -/
theorem yes_commit_defaults_empty_fields_witness :
    (handleTextMessage env0 (some sConfirmPartial) "yes").2.filter isAddEntryEff
        = [.addEntry (mkEntry ePartial sConfirmPartial env0.today)]
    ∧ (env0.today ≠ "" → (mkEntry ePartial sConfirmPartial env0.today).date ≠ "")
    ∧ (optStrFalsy ePartial.category = true →
        (mkEntry ePartial sConfirmPartial env0.today).category = "")
    ∧ (optStrFalsy ePartial.description = true →
        (mkEntry ePartial sConfirmPartial env0.today).description = "")
    ∧ (optNumFalsy ePartial.amount = true →
        (mkEntry ePartial sConfirmPartial env0.today).amount = 0) :=
  yes_commit_defaults_empty_fields env0 sConfirmPartial ePartial (Or.inl rfl) rfl

/-- Counterexample to C6 as stated: a photo turn whose extraction found
only the amount at confidence 0.9 goes straight to confirmation, and the
subsequent yes commits a record whose category and description are empty
strings, so the append does receive empty required fields. -/
theorem commit_empty_required_counterexample :
    (handleTextMessage env0
        ((handlePhotoMessage env0 (some sPhoto) true (some "http://drive/r2")
            (some "shop 1200") (some ePartial)).1)
        "yes").2.filter isAddEntryEff
      = [.addEntry { amount := 1200, category := "", description := "",
                     date := "2025-01-15", type := .expense,
                     receiptUrl := "http://drive/r2", addedBy := "Carol" }] := by decide

/-- A mid-flow session with a draft, a pending question, a receipt URL and
a display name, about to be restarted. -/
def s7 : UserState :=
  { type := .income,
    extractedInfo := some (.extracted { confidence := mkRat 1 2 }),
    pendingQuestions := some [amountQuestion],
    receiptUrl := some "http://drive/r3",
    userName := some "Dave" }

/-- Counterexample to C7 as stated: pressing the add_expense button on a
session with a draft and a pending question keeps both (they are not
overwritten), while the /expense command discards the stored receiptUrl
(it is not preserved). -/
theorem restart_flow_counterexample :
    (addExpenseCallback (some s7) "Dave").pendingQuestions = some [amountQuestion]
    ∧ (addExpenseCallback (some s7) "Dave").extractedInfo
        = some (.extracted { confidence := mkRat 1 2 })
    ∧ s7.receiptUrl = some "http://drive/r3"
    ∧ (expenseCommand "Dave").receiptUrl = none :=
  ⟨rfl, rfl, rfl, rfl⟩

/-- Claim C7 as amended: the add_expense and add_income buttons switch
only the mode, preserving the previous draft, pendingQuestions,
receiptUrl and userName (the latter falling back to the presser's display
name when unset); the /expense and /income commands instead reset the
session to a fresh state holding only the mode and the sender's display
name, discarding the previous draft, pendingQuestions and receiptUrl. -/
theorem restart_flow_behavior (cur : Option UserState) (fromName : String) :
    (addExpenseCallback cur fromName).type = .expense
    ∧ (addExpenseCallback cur fromName).extractedInfo = cur.bind UserState.extractedInfo
    ∧ (addExpenseCallback cur fromName).pendingQuestions = cur.bind UserState.pendingQuestions
    ∧ (addExpenseCallback cur fromName).receiptUrl = cur.bind UserState.receiptUrl
    ∧ (addExpenseCallback cur fromName).userName
        = some (jsOrStr (cur.bind UserState.userName) fromName)
    ∧ (addIncomeCallback cur fromName).type = .income
    ∧ (addIncomeCallback cur fromName).extractedInfo = cur.bind UserState.extractedInfo
    ∧ (addIncomeCallback cur fromName).pendingQuestions = cur.bind UserState.pendingQuestions
    ∧ (addIncomeCallback cur fromName).receiptUrl = cur.bind UserState.receiptUrl
    ∧ (addIncomeCallback cur fromName).userName
        = some (jsOrStr (cur.bind UserState.userName) fromName)
    ∧ expenseCommand fromName
        = { type := .expense, extractedInfo := none, pendingQuestions := none,
            receiptUrl := none, userName := some fromName, collectionType := none }
    ∧ incomeCommand fromName
        = { type := .income, extractedInfo := none, pendingQuestions := none,
            receiptUrl := none, userName := some fromName, collectionType := none } :=
  ⟨rfl, rfl, rfl, rfl, rfl, rfl, rfl, rfl, rfl, rfl, rfl, rfl⟩

/-- A session in expense mode whose only pending question is the
description follow-up, with an amount already extracted. -/
def s8 : UserState :=
  { type := .expense,
    extractedInfo := some (.extracted { amount := some (.num 100), confidence := mkRat 2 5 }),
    pendingQuestions := some [descriptionQuestion],
    userName := some "Bob" }

/-- Claim C8, failing input: the queued description question is the text
'What is this expense/income for?', which contains none of the dispatch
keywords amount, category, description, date; answering it therefore
fills no draft field at all. The turn pops the question and proceeds to
confirmation with the description still unset, shown as the empty
string. -/
theorem description_answer_dropped :
    jsIncludes descriptionQuestion "description" = false
    ∧ jsIncludes descriptionQuestion "amount" = false
    ∧ jsIncludes descriptionQuestion "category" = false
    ∧ jsIncludes descriptionQuestion "date" = false
    ∧ handleTextMessage env0 (some s8) "lobby cleaning"
      = (some { type := .expense,
                extractedInfo := some (.extracted
                  { amount := some (.num 100), confidence := mkRat 2 5 }),
                pendingQuestions := none, receiptUrl := none,
                userName := some "Bob", collectionType := none },
         [.confirmPrompt { amount := 100, category := "", description := "",
                           date := "2025-01-15", type := .expense,
                           receiptUrl := "", addedBy := "Bob" }]) :=
  ⟨by decide, by decide, by decide, by decide, by decide⟩

/-- A FlatInfo session whose head question is the optional tenant-name
prompt. -/
def s9 : UserState :=
  { type := .flat_info,
    pendingQuestions := some ["If occupied, enter tenant name (or press skip):",
                              "Enter email (or press skip):"],
    userName := some "Bob" }

/-- A FlatInfo session at the optional email prompt with every required
field already filled. -/
def s9email : UserState :=
  { type := .flat_info,
    extractedInfo := some (.flat
      { flatNumber := some "101", floorNumber := some "2", ownerName := some "bob",
        maintenanceAmount := some (.num 1500), phoneNumber := some "9999",
        isOccupied := some true }),
    pendingQuestions := some ["Enter email (or press skip):"],
    userName := some "Bob" }

/-- Claim C9, failing input: the tenant-name question text contains the
substring occupied, so the required-field check fires and the literal
answer skip is rejected with the validation message, the question list
unchanged — although tenant name is an optional field whose prompt even
offers skip. On the email question (which hits no required keyword) skip
is accepted and the flow advances to the save. -/
theorem tenant_skip_rejected :
    jsIncludes "If occupied, enter tenant name (or press skip):" "occupied" = true
    ∧ handleTextMessage env0 (some s9) "skip"
        = (some s9, [.sendMessage requiredFieldMessage])
    ∧ handleTextMessage env0 (some s9email) "skip"
        = (none, [.updateFlatInfo
                    { flatNumber := "101", floorNumber := "2", ownerName := "Bob",
                      tenantName := none, maintenanceAmount := .num 1500,
                      phoneNumber := "9999", email := none, isOccupied := true,
                      lastUpdated := "2025-01-15T10:00:00.000Z" },
                  .sendMessage flatSavedMessage]) :=
  ⟨by decide, by decide, by decide⟩

/-- Claim C10: a chat with no session that sends a photo or a plain
non-greeting, non-command text gets only the choose-expense-or-income
prompt: no session is created and no upload, OCR, extraction or
persistence call is made. -/
theorem no_session_prompts_selection
    (env : Env) (input : String)
    (hslash : jsStartsWithSlash input = false)
    (hgreet : jsToLower input ∉ greetings)
    (up ocr : Option String) (ex : Option ExtractedInfo) :
    handleTextMessage env none input = (none, [.sendMessage choosePrompt])
    ∧ handlePhotoMessage env none true up ocr ex = (none, [.sendMessage choosePrompt]) := by
  constructor
  · simp [handleTextMessage, hslash, hgreet]
  · simp [handlePhotoMessage]

/-- Witness for C10 at a concrete text and photo. -/
theorem no_session_prompts_selection_witness :
    handleTextMessage env0 none "abc" = (none, [.sendMessage choosePrompt])
    ∧ handlePhotoMessage env0 none true none none none
        = (none, [.sendMessage choosePrompt]) :=
  no_session_prompts_selection env0 "abc" (by decide) (by decide) none none none
